import Mathlib

/-
Shallow embedding of the Swarm window manager
(src/Swarm/Framework/source/Window.cpp).

Modelling conventions:
* The singleton's fields keep their source names (m_window, m_camera,
  windowTitle_, fpsCount_, currentTime_, lastUpdate_).  The C++ pointer
  m_window is modelled as a Bool recording whether the handle is present.
* Calls into GLFW / OpenGL are recorded in an explicit trace (List Event);
  each operation returns its successor state (or result) together with the
  trace of library calls and log lines it performs.  A nullWin flag on the
  per-window GLFW calls records that the call was issued with a NULL handle.
* The one native window the program ever creates is kept in the state even
  after the handle is dropped (close never destroys it), so that
  registrations left on it remain observable.
* double / float values become exact numbers: camera scalars become ℤ
  (every camera constant appearing in this file — translation steps 10.0f,
  rotation steps 5.0f, the default eye point, clip planes, pixel sizes — is
  integral), while times and cursor coordinates become ℚ; the monotonic
  clock (glfwGetTime) is an input: functions that read the clock take the
  value(s) read as arguments.
* glfwPollEvents dispatches a list of pending input events, supplied as an
  argument, to whichever callbacks are registered on the native window.
-/

/-- glm::vec4 with integral components. -/
abbrev Vec4 := ℤ × ℤ × ℤ × ℤ

/-- Componentwise vector addition. -/
def vadd (u v : Vec4) : Vec4 :=
  (u.1 + v.1, u.2.1 + v.2.1, u.2.2.1 + v.2.2.1, u.2.2.2 + v.2.2.2)

/-- Vector times scalar, as in `m_camera.viewDirection() * 10.0f`. -/
def vscale (v : Vec4) (a : ℤ) : Vec4 :=
  (v.1 * a, v.2.1 * a, v.2.2.1 * a, v.2.2.2 * a)

/-- Modelled from the spec: the Camera collaborator is a repository component
that is not under src/ (only its callers appear in Window.cpp).  Per the spec
it "holds eye point, orientation, projection parameters" and exposes
translate/rotate/reset operations, a window-size setter and clip-plane
setter.  Orientation is the pair of yaw/pitch angles. -/
structure Camera where
  eyePoint : Vec4
  yaw : ℤ
  pitch : ℤ
  winW : ℤ
  winH : ℤ
  nearPlane : ℤ
  farPlane : ℤ
deriving DecidableEq

/-- Modelled from the spec: eye-point setter. -/
def Camera.setEyePoint (c : Camera) (p : Vec4) : Camera :=
  { c with eyePoint := p }

/-- Modelled from the spec: translate-eye-point moves the eye by the given
vector. -/
def Camera.translateEyePoint (c : Camera) (v : Vec4) : Camera :=
  { c with eyePoint := vadd c.eyePoint v }

/-- Modelled from the spec: yaw rotation by a fixed increment. -/
def Camera.rotateYaw (c : Camera) (a : ℤ) : Camera :=
  { c with yaw := c.yaw + a }

/-- Modelled from the spec: pitch rotation by a fixed increment. -/
def Camera.rotatePitch (c : Camera) (a : ℤ) : Camera :=
  { c with pitch := c.pitch + a }

/-- Modelled from the spec: angle reset clears yaw and pitch. -/
def Camera.resetAngles (c : Camera) : Camera :=
  { c with yaw := 0, pitch := 0 }

/-- Modelled from the spec: window-size setter (affects aspect ratio). -/
def Camera.setWindowSize (c : Camera) (w h : ℤ) : Camera :=
  { c with winW := w, winH := h }

/-- Modelled from the spec: near/far clip-plane setter. -/
def Camera.setDistancePlanes (c : Camera) (n f : ℤ) : Camera :=
  { c with nearPlane := n, farPlane := f }

/-- Modelled from the spec: the camera's view / horizontal / up direction
queries.  Their internal mathematics lives outside this repository's shown
sources, so they are kept abstract as an arbitrary family of functions of the
camera state, passed as a parameter to the key handler. -/
structure CameraDirs where
  viewDirection : Camera → Vec4
  horizontalDirection : Camera → Vec4
  upDirection : Camera → Vec4

/-- GLFW constant: action value of a key release. -/
def GLFW_RELEASE : Int := 0

/-- GLFW constant: action value of a key press. -/
def GLFW_PRESS : Int := 1

/-- GLFW constant: action value of a key repeat. -/
def GLFW_REPEAT : Int := 2

/-- GLFW key code for W. -/
def GLFW_KEY_W : Int := 87

/-- GLFW key code for S. -/
def GLFW_KEY_S : Int := 83

/-- GLFW key code for A. -/
def GLFW_KEY_A : Int := 65

/-- GLFW key code for D. -/
def GLFW_KEY_D : Int := 68

/-- GLFW key code for Q. -/
def GLFW_KEY_Q : Int := 81

/-- GLFW key code for E. -/
def GLFW_KEY_E : Int := 69

/-- GLFW key code for R. -/
def GLFW_KEY_R : Int := 82

/-- GLFW key code for the left arrow. -/
def GLFW_KEY_LEFT : Int := 263

/-- GLFW key code for the right arrow. -/
def GLFW_KEY_RIGHT : Int := 262

/-- GLFW key code for the up arrow. -/
def GLFW_KEY_UP : Int := 265

/-- GLFW key code for the down arrow. -/
def GLFW_KEY_DOWN : Int := 264

/-- One GLFW / OpenGL library call or log line performed by the window
manager.  The nullWin flag of a per-window call is true when the call was
issued with a NULL window pointer. -/
inductive Event where
  | glfwSetErrorCallback
  | glfwWindowHint (target val : Nat)
  | glfwCreateWindow (w h : Nat) (title : String) (ok : Bool)
  | glfwMakeContextCurrent
  | glfwSetWindowTitle (title : String)
  | glfwGetWindowSize
  | glfwSetKeyCallback (nullWin installed : Bool)
  | glfwSetWindowSizeCallback (nullWin installed : Bool)
  | glfwSetFramebufferSizeCallback (nullWin installed : Bool)
  | glfwSetScrollCallback (nullWin installed : Bool)
  | glfwSetWindowShouldClose (v : Bool)
  | glfwSwapInterval (n : Nat)
  | glfwSwapBuffers
  | glfwPollEvents
  | glfwWindowShouldClose (res : Bool)
  | glfwGetCursorPos (nullWin : Bool)
  | glEnable (cap : Nat)
  | glDebugMessageCallback
  | glDebugMessageControl
  | glViewport (w h : Int)
  | coutLine (s : String)
  | cerrLine (s : String)
deriving DecidableEq

/-- A pending input event delivered by glfwPollEvents. -/
inductive InputEvent where
  | key (k a m : Int)
  | resize (w h : Nat)
  | fbResize (w h : Int)
  | scroll (x y : ℚ)
  | closeRequest
deriving DecidableEq

/-- The native GLFW window: its size, displayed title, should-close flag,
which callbacks are registered on it, and the library's cursor position.
It stays alive (abandoned) when the manager drops its handle, since close()
never destroys it. -/
structure NativeWindow where
  width : Nat
  height : Nat
  title : String
  shouldClose : Bool
  cbKey : Bool
  cbWindowSize : Bool
  cbFramebufferSize : Bool
  cbScroll : Bool
  cursorX : ℚ
  cursorY : ℚ
deriving DecidableEq

/-- The Window singleton's state.  m_window is the handle-present flag
(the C++ member is a pointer, NULL when closed). -/
structure Window where
  m_window : Bool
  native : NativeWindow
  m_camera : Camera
  windowTitle_ : String
  fpsCount_ : Nat
  currentTime_ : ℚ
  lastUpdate_ : ℚ
deriving DecidableEq

/-- Window::isOpen — true iff the handle is present. -/
def Window.isOpen (s : Window) : Bool := s.m_window

/-- Window::setWindowTitle — updates the native title only when open. -/
def Window.setWindowTitle (t : String) (s : Window) : Window × List Event :=
  if s.isOpen then
    ({ s with native := { s.native with title := t } }, [Event.glfwSetWindowTitle t])
  else (s, [])

/-- Window::getWidth — queries glfwGetWindowSize when open, else returns 0
without touching the library. -/
def Window.getWidth (s : Window) : Nat × List Event :=
  if s.isOpen then (s.native.width, [Event.glfwGetWindowSize]) else (0, [])

/-- Window::getHeight — queries glfwGetWindowSize when open, else returns 0
without touching the library. -/
def Window.getHeight (s : Window) : Nat × List Event :=
  if s.isOpen then (s.native.height, [Event.glfwGetWindowSize]) else (0, [])

/-- Window::setActive — makes the context current only when open. -/
def Window.setActive (s : Window) : Window × List Event :=
  if s.isOpen then (s, [Event.glfwMakeContextCurrent]) else (s, [])

/-- Window::close — when open, unregisters the key, window-size and
framebuffer-size callbacks (the scroll callback is left registered, as in the
source), clears the should-close flag and drops the handle; otherwise a
no-op. -/
def Window.close (s : Window) : Window × List Event :=
  if s.isOpen then
    ({ s with
        native := { s.native with
          cbKey := false, cbWindowSize := false, cbFramebufferSize := false,
          shouldClose := false },
        m_window := false },
     [Event.glfwSetKeyCallback false false,
      Event.glfwSetWindowSizeCallback false false,
      Event.glfwSetFramebufferSizeCallback false false,
      Event.glfwSetWindowShouldClose false])
  else (s, [])

/-- Window::getCursorPos — calls glfwGetCursorPos unconditionally, passing
the stored handle even when it is NULL.  When the handle is NULL the library
receives an invalid window and the two output doubles are never written, so
the returned coordinates are undefined: modelled as none. -/
def Window.getCursorPos (s : Window) : Option (ℚ × ℚ) × List Event :=
  (if s.isOpen then some (s.native.cursorX, s.native.cursorY) else none,
   [Event.glfwGetCursorPos (!s.isOpen)])

/-- Window::setEyePoint — forwards to the camera. -/
def Window.setEyePoint (p : Vec4) (s : Window) : Window :=
  { s with m_camera := s.m_camera.setEyePoint p }

/-- Window::handleKeyEvent (instance overload) — when open and the action is
press or repeat, dispatches the key code to a camera operation; otherwise a
no-op.  The switch cases follow the source: W/S translate along the view
direction, A/D along the horizontal direction, Q/E along the up direction,
the arrow keys rotate yaw/pitch by ±5, and R restores the fixed default eye
point (0, 0, 500, 1) and resets the angles. -/
def Window.handleKeyEvent (dirs : CameraDirs) (key action _mods : Int)
    (s : Window) : Window :=
  if s.isOpen then
    if action = GLFW_PRESS ∨ action = GLFW_REPEAT then
      if key = GLFW_KEY_W then
        { s with m_camera := s.m_camera.translateEyePoint (vscale (dirs.viewDirection s.m_camera) 10) }
      else if key = GLFW_KEY_S then
        { s with m_camera := s.m_camera.translateEyePoint (vscale (dirs.viewDirection s.m_camera) (-10)) }
      else if key = GLFW_KEY_A then
        { s with m_camera := s.m_camera.translateEyePoint (vscale (dirs.horizontalDirection s.m_camera) 10) }
      else if key = GLFW_KEY_D then
        { s with m_camera := s.m_camera.translateEyePoint (vscale (dirs.horizontalDirection s.m_camera) (-10)) }
      else if key = GLFW_KEY_Q then
        { s with m_camera := s.m_camera.translateEyePoint (vscale (dirs.upDirection s.m_camera) 10) }
      else if key = GLFW_KEY_E then
        { s with m_camera := s.m_camera.translateEyePoint (vscale (dirs.upDirection s.m_camera) (-10)) }
      else if key = GLFW_KEY_LEFT then
        { s with m_camera := s.m_camera.rotateYaw 5 }
      else if key = GLFW_KEY_RIGHT then
        { s with m_camera := s.m_camera.rotateYaw (-5) }
      else if key = GLFW_KEY_UP then
        { s with m_camera := s.m_camera.rotatePitch 5 }
      else if key = GLFW_KEY_DOWN then
        { s with m_camera := s.m_camera.rotatePitch (-5) }
      else if key = GLFW_KEY_R then
        { s with m_camera := (s.m_camera.setEyePoint (0, 0, 500, 1)).resetAngles }
      else s
    else s
  else s

/-- Window::handleResizeEvent (instance overload) — when open, logs and
forwards the new logical size to the camera. -/
def Window.handleResizeEvent (w h : Nat) (s : Window) : Window × List Event :=
  if s.isOpen then
    ({ s with m_camera := s.m_camera.setWindowSize (w : ℤ) (h : ℤ) },
     [Event.coutLine "Window resized."])
  else (s, [])

/-- Window::handleFramebufferResizeEvent (instance overload) — when open,
logs and reconfigures the viewport. -/
def Window.handleFramebufferResizeEvent (w h : Int) (s : Window) :
    Window × List Event :=
  if s.isOpen then (s, [Event.coutLine "Framebuffer resized.", Event.glViewport w h])
  else (s, [])

/-- Environment outcomes of the fallible library calls made during
Window::open: whether glfwCreateWindow returns a window, whether glewInit
returns GLEW_OK (with the error string glewGetErrorString would produce
otherwise), and whether glewIsSupported("GL_VERSION_3_3") holds. -/
structure OpenEnv where
  createOk : Bool
  glewOk : Bool
  glewErrMsg : String
  gl33Supported : Bool
deriving DecidableEq

/-- Window::open(title, width, height) — no-op when already open.  Otherwise
it installs the error callback, sets the four window hints, creates the
window (assigning the handle from the creation result), activates the
context, initializes glew (on failure: close, then log), checks OpenGL 3.3
support (on failure: close, then log), and then — unconditionally, even
after a failure has closed the window — sets the camera window size,
registers the key / window-size / framebuffer-size / scroll callbacks on
whatever m_window now holds (a NULL handle after a failure, recorded by the
nullWin flag, leaving the native window's registrations untouched), enables
v-sync and the debug output, and stores the title. -/
def Window.openWindow (env : OpenEnv) (title : String) (w h : Nat)
    (s : Window) : Window × List Event :=
  if s.isOpen then (s, [])
  else
    let tr0 : List Event :=
      [Event.glfwSetErrorCallback,
       Event.glfwWindowHint 0x0002100D 4,
       Event.glfwWindowHint 0x00022002 3,
       Event.glfwWindowHint 0x00022003 3,
       Event.glfwWindowHint 0x00022008 0x00032001]
    let s1 : Window :=
      if env.createOk then
        { s with m_window := true,
                 native := { width := w, height := h, title := title,
                             shouldClose := false, cbKey := false,
                             cbWindowSize := false, cbFramebufferSize := false,
                             cbScroll := false, cursorX := 0, cursorY := 0 } }
      else { s with m_window := false }
    let tr1 : List Event := [Event.glfwCreateWindow w h title env.createOk]
    let a := s1.setActive
    let g :=
      if env.glewOk then
        (a.1, [Event.coutLine ("Glew is initialized for window " ++ title ++ ".")])
      else
        let c := a.1.close
        (c.1, c.2 ++ [Event.cerrLine ("Unable to initialize glew library: " ++ env.glewErrMsg)])
    let v :=
      if env.gl33Supported then
        (g.1, [Event.coutLine "OpenGL 3.3 is supported."])
      else
        let c := g.1.close
        (c.1, c.2 ++ [Event.cerrLine "OpenGL 3.3 is not supported!"])
    let s2 : Window := { v.1 with m_camera := v.1.m_camera.setWindowSize (w : ℤ) (h : ℤ) }
    let cb :=
      if s2.m_window then
        ({ s2 with native := { s2.native with
             cbKey := true, cbWindowSize := true,
             cbFramebufferSize := true, cbScroll := true } },
         [Event.glfwSetKeyCallback false true,
          Event.glfwSetWindowSizeCallback false true,
          Event.glfwSetFramebufferSizeCallback false true,
          Event.glfwSetScrollCallback false true])
      else
        (s2,
         [Event.glfwSetKeyCallback true true,
          Event.glfwSetWindowSizeCallback true true,
          Event.glfwSetFramebufferSizeCallback true true,
          Event.glfwSetScrollCallback true true])
    let trTail : List Event :=
      [Event.glfwSwapInterval 1, Event.glEnable 0x92E0, Event.glEnable 0x8242,
       Event.glDebugMessageCallback, Event.glDebugMessageControl]
    ({ cb.1 with windowTitle_ := title },
     tr0 ++ tr1 ++ a.2 ++ g.2 ++ v.2 ++ cb.2 ++ trTail)

/-- Delivery of one pending event during glfwPollEvents: each event reaches
the window manager only through the callback registered for it on the native
window (the static callbacks forward to the singleton's instance handlers);
the scroll callback is intentionally empty; a close request from the user
sets the library's should-close flag on the native window. -/
def Window.dispatchEvent (dirs : CameraDirs) (e : InputEvent) (s : Window) :
    Window × List Event :=
  match e with
  | InputEvent.key k a m =>
      if s.native.cbKey then (Window.handleKeyEvent dirs k a m s, []) else (s, [])
  | InputEvent.resize w h =>
      if s.native.cbWindowSize then Window.handleResizeEvent w h s else (s, [])
  | InputEvent.fbResize w h =>
      if s.native.cbFramebufferSize then Window.handleFramebufferResizeEvent w h s
      else (s, [])
  | InputEvent.scroll _ _ => (s, [])
  | InputEvent.closeRequest =>
      ({ s with native := { s.native with shouldClose := true } }, [])

/-- Delivery of all pending events, in order. -/
def Window.dispatchEvents (dirs : CameraDirs) (es : List InputEvent)
    (s : Window) : Window × List Event :=
  match es with
  | [] => (s, [])
  | e :: rest =>
      let r := Window.dispatchEvent dirs e s
      let r2 := Window.dispatchEvents dirs rest r.1
      (r2.1, r.2 ++ r2.2)

/-- Window::swapBuffer — no-op when closed.  Otherwise activates the
context, swaps the buffers, polls events (dispatching all pending events),
and finally checks glfwWindowShouldClose, closing the window when the flag
is set. -/
def Window.swapBuffer (dirs : CameraDirs) (events : List InputEvent)
    (s : Window) : Window × List Event :=
  if s.isOpen then
    let a := s.setActive
    let d := Window.dispatchEvents dirs events a.1
    let flag := d.1.native.shouldClose
    if flag then
      let c := d.1.close
      (c.1, a.2 ++ [Event.glfwSwapBuffers, Event.glfwPollEvents] ++ d.2 ++
            [Event.glfwWindowShouldClose flag] ++ c.2)
    else
      (d.1, a.2 ++ [Event.glfwSwapBuffers, Event.glfwPollEvents] ++ d.2 ++
            [Event.glfwWindowShouldClose flag])
  else (s, [])

/-- The sprintf_s format "%s: %3.1f FPS || %3.3f ms/frame" applied to the
stored base title, the frames-per-second value and the
milliseconds-per-frame value. -/
def formatFPS (base : String) (ifps framesPerms : ℚ) : String :=
  base ++ ": " ++ toString ifps ++ " FPS || " ++ toString framesPerms ++ " ms/frame"

/-- Window::computeFPS — increments the frame counter, refreshes
currentTime_ from the clock (first read t1), and when at least one second
has elapsed since lastUpdate_, formats the FPS title from the incremented
counter and elapsed time, applies it through setWindowTitle, resets the
counter to 0 and sets lastUpdate_ from a second clock read t2. -/
def Window.computeFPS (t1 t2 : ℚ) (s : Window) : Window × List Event :=
  let s1 : Window := { s with fpsCount_ := s.fpsCount_ + 1, currentTime_ := t1 }
  let timeDiff : ℚ := s1.currentTime_ - s1.lastUpdate_
  if 1 ≤ timeDiff then
    let framesPerms : ℚ := (timeDiff * 1000) / (s1.fpsCount_ : ℚ)
    let ifps : ℚ := (s1.fpsCount_ : ℚ) / timeDiff
    let r := Window.setWindowTitle (formatFPS s1.windowTitle_ ifps framesPerms) s1
    ({ r.1 with fpsCount_ := 0, lastUpdate_ := t2 }, r.2)
  else (s1, [])

/-- Window::updateDisplay — swapBuffer followed by computeFPS. -/
def Window.updateDisplay (dirs : CameraDirs) (events : List InputEvent)
    (t1 t2 : ℚ) (s : Window) : Window × List Event :=
  let r1 := Window.swapBuffer dirs events s
  let r2 := Window.computeFPS t1 t2 r1.1
  (r2.1, r1.2 ++ r2.2)

/-- A concrete camera at the default eye point with cleared angles. -/
def camera0 : Camera :=
  { eyePoint := (0, 0, 500, 1), yaw := 0, pitch := 0,
    winW := 800, winH := 600, nearPlane := 1, farPlane := 10000 }

/-- A concrete native window with all callbacks registered. -/
def nw0 : NativeWindow :=
  { width := 800, height := 600, title := "Test", shouldClose := false,
    cbKey := true, cbWindowSize := true, cbFramebufferSize := true,
    cbScroll := true, cursorX := 0, cursorY := 0 }

/-- A concrete open window state. -/
def os0 : Window :=
  { m_window := true, native := nw0, m_camera := camera0,
    windowTitle_ := "Test", fpsCount_ := 0, currentTime_ := 0, lastUpdate_ := 0 }

/-- The same state with the handle dropped: a concrete closed window. -/
def cs0 : Window := { os0 with m_window := false }

/-- The freshly constructed singleton: no handle, camera with the fixed
near/far planes from the constructor, empty title, zeroed counters. -/
def w0 : Window :=
  { m_window := false,
    native := { width := 0, height := 0, title := "", shouldClose := false,
                cbKey := false, cbWindowSize := false,
                cbFramebufferSize := false, cbScroll := false,
                cursorX := 0, cursorY := 0 },
    m_camera := { eyePoint := (0, 0, 500, 1), yaw := 0, pitch := 0,
                  winW := 0, winH := 0, nearPlane := 1, farPlane := 10000 },
    windowTitle_ := "", fpsCount_ := 0, currentTime_ := 0, lastUpdate_ := 0 }

/-- Concrete direction queries with nonzero axis-aligned directions. -/
def dirs0 : CameraDirs :=
  { viewDirection := fun _ => (0, 0, -1, 0),
    horizontalDirection := fun _ => (1, 0, 0, 0),
    upDirection := fun _ => (0, 1, 0, 0) }

/-- A fully successful open environment. -/
def envOk : OpenEnv :=
  { createOk := true, glewOk := true, glewErrMsg := "", gl33Supported := true }

/-- An environment in which glewInit fails. -/
def envGlewFail : OpenEnv :=
  { createOk := true, glewOk := false, glewErrMsg := "Missing GL version",
    gl33Supported := true }

/-- The state after a successful open of a "Test" 800 by 600 window from the
fresh singleton. -/
def openedW : Window := (Window.openWindow envOk "Test" 800 600 w0).1

/-- Key handling never touches the window handle. -/
theorem handleKeyEvent_m_window (dirs : CameraDirs) (k a m : Int) (s : Window) :
    (Window.handleKeyEvent dirs k a m s).m_window = s.m_window := by
  simp only [Window.handleKeyEvent, apply_ite Window.m_window, ite_self]

/-- Event delivery never touches the window handle. -/
theorem dispatchEvent_m_window (dirs : CameraDirs) (e : InputEvent) (s : Window) :
    ((Window.dispatchEvent dirs e s).1).m_window = s.m_window := by
  cases e <;>
    simp [Window.dispatchEvent, Window.handleResizeEvent,
      Window.handleFramebufferResizeEvent, handleKeyEvent_m_window,
      apply_ite Prod.fst, apply_ite Window.m_window, ite_self]

/-- Delivering a whole batch of events never touches the window handle. -/
theorem dispatchEvents_m_window (dirs : CameraDirs) (es : List InputEvent)
    (s : Window) : ((Window.dispatchEvents dirs es s).1).m_window = s.m_window := by
  induction es generalizing s with
  | nil => rfl
  | cons e rest ih =>
      simp only [Window.dispatchEvents]
      rw [ih, dispatchEvent_m_window]

/-- C1 counterexample: getCursorPos is not among the guarded operations.
Called on a concrete closed window it still issues a glfwGetCursorPos call,
passing the NULL handle to the library, so on a closed window it is not a
silent no-op that leaves the native window untouched. -/
theorem getCursorPos_closed_touches_glfw :
    cs0.isOpen = false ∧
    (Window.getCursorPos cs0).2 = [Event.glfwGetCursorPos true] ∧
    (Window.getCursorPos cs0).2 ≠ [] := by
  refine ⟨rfl, rfl, by decide⟩

/-- C1 (amended): getWidth, getHeight, setWindowTitle and setActive are
silent no-ops returning zero/defaults on a closed window, and after close()
getWidth and getHeight return 0; getCursorPos however is unguarded and
issues a cursor query on the NULL handle even when closed. -/
theorem closed_window_accessors_are_noops (s : Window) (h : s.isOpen = false) :
    Window.getWidth s = (0, []) ∧
    Window.getHeight s = (0, []) ∧
    (∀ t, Window.setWindowTitle t s = (s, [])) ∧
    Window.setActive s = (s, []) ∧
    Window.getCursorPos s = (none, [Event.glfwGetCursorPos true]) ∧
    (∀ s2 : Window, Window.getWidth ((Window.close s2).1) = (0, []) ∧
                    Window.getHeight ((Window.close s2).1) = (0, [])) := by
  have hclose : ∀ s2 : Window, ((Window.close s2).1).m_window = false := by
    intro s2
    unfold Window.close
    split
    · rfl
    · rename_i hs2
      simpa [Window.isOpen] using hs2
  refine ⟨?_, ?_, ?_, ?_, ?_, ?_⟩
  · simp [Window.getWidth, h]
  · simp [Window.getHeight, h]
  · intro t; simp [Window.setWindowTitle, h]
  · simp [Window.setActive, h]
  · simp [Window.getCursorPos, h]
  · intro s2
    constructor
    · simp [Window.getWidth, Window.isOpen, hclose s2]
    · simp [Window.getHeight, Window.isOpen, hclose s2]

/-- C1 witness: the amended statement applied to the concrete closed
window. -/
theorem closed_window_accessors_are_noops_witness :
    Window.getWidth cs0 = (0, []) ∧
    Window.getCursorPos cs0 = (none, [Event.glfwGetCursorPos true]) :=
  ⟨(closed_window_accessors_are_noops cs0 rfl).1,
   (closed_window_accessors_are_noops cs0 rfl).2.2.2.2.1⟩

/-- C3 counterexample: close() does not unregister every callback that
open() registered.  After a successful open (which registers the scroll
callback) followed by close(), the scroll callback is still registered on
the native window, and close()'s trace contains no scroll-unregistration
call. -/
theorem close_leaves_scroll_registered :
    openedW.native.cbScroll = true ∧
    ((Window.close openedW).1).native.cbScroll = true ∧
    Event.glfwSetScrollCallback false false ∉ (Window.close openedW).2 ∧
    Event.glfwSetScrollCallback true false ∉ (Window.close openedW).2 := by
  decide

/-- C3 (amended): close() is a no-op when already closed; otherwise it
unregisters the key, window-resize and framebuffer-resize callbacks (the
scroll callback stays registered), clears the should-close flag and clears
the handle, preserving camera and title; closing twice equals closing once
and the second close never errors. -/
theorem close_spec_amended (s : Window) :
    (s.isOpen = false → Window.close s = (s, [])) ∧
    (s.isOpen = true →
      ((Window.close s).1.m_window = false ∧
       (Window.close s).1.native.cbKey = false ∧
       (Window.close s).1.native.cbWindowSize = false ∧
       (Window.close s).1.native.cbFramebufferSize = false ∧
       (Window.close s).1.native.cbScroll = s.native.cbScroll ∧
       (Window.close s).1.native.shouldClose = false ∧
       (Window.close s).1.m_camera = s.m_camera ∧
       (Window.close s).1.windowTitle_ = s.windowTitle_)) ∧
    Window.close ((Window.close s).1) = ((Window.close s).1, []) := by
  by_cases h : s.isOpen
  · have hm : s.m_window = true := h
    refine ⟨fun hc => by simp [h] at hc, fun _ => ?_, ?_⟩
    · simp [Window.close, Window.isOpen, hm]
    · simp [Window.close, Window.isOpen, hm]
  · have h' : s.isOpen = false := by simpa using h
    have hm : s.m_window = false := h'
    refine ⟨fun _ => by simp [Window.close, Window.isOpen, hm],
            fun hc => by simp [h'] at hc, ?_⟩
    simp [Window.close, Window.isOpen, hm]

/-- C3 witness: the amended statement applied at a concrete open and a
concrete closed window. -/
theorem close_spec_amended_witness :
    (Window.close os0).1.native.cbKey = false ∧ Window.close cs0 = (cs0, []) :=
  ⟨((close_spec_amended os0).2.1 rfl).2.1, (close_spec_amended cs0).1 rfl⟩

/-- C7: delivering a press of the reset key R to the key handler of an open
window sets the camera eye point to the fixed default (0, 0, 500, 1) and
resets yaw and pitch, for every prior camera state and every direction
model; and a forward (W) press followed by a reset press leaves the eye at
the default, not at the post-forward position. -/
theorem reset_key_restores_default (dirs : CameraDirs) (s : Window)
    (h : s.isOpen = true) :
    (Window.handleKeyEvent dirs GLFW_KEY_R GLFW_PRESS 0 s).m_camera.eyePoint = (0, 0, 500, 1) ∧
    (Window.handleKeyEvent dirs GLFW_KEY_R GLFW_PRESS 0 s).m_camera.yaw = 0 ∧
    (Window.handleKeyEvent dirs GLFW_KEY_R GLFW_PRESS 0 s).m_camera.pitch = 0 ∧
    (Window.handleKeyEvent dirs GLFW_KEY_R GLFW_PRESS 0
       (Window.handleKeyEvent dirs GLFW_KEY_W GLFW_PRESS 0 s)).m_camera.eyePoint = (0, 0, 500, 1) := by
  have hm : s.m_window = true := h
  refine ⟨?_, ?_, ?_, ?_⟩ <;>
    simp [Window.handleKeyEvent, Window.isOpen, hm, GLFW_PRESS, GLFW_REPEAT,
      GLFW_KEY_R, GLFW_KEY_W, GLFW_KEY_S, GLFW_KEY_A, GLFW_KEY_D, GLFW_KEY_Q,
      GLFW_KEY_E, GLFW_KEY_LEFT, GLFW_KEY_RIGHT, GLFW_KEY_UP, GLFW_KEY_DOWN,
      Camera.setEyePoint, Camera.resetAngles, Camera.translateEyePoint]

/-- C7 witness: the reset property applied at the concrete open window and
the concrete direction model. -/
theorem reset_key_restores_default_witness :
    (Window.handleKeyEvent dirs0 GLFW_KEY_R GLFW_PRESS 0
       (Window.handleKeyEvent dirs0 GLFW_KEY_W GLFW_PRESS 0 os0)).m_camera.eyePoint = (0, 0, 500, 1) :=
  (reset_key_restores_default dirs0 os0 rfl).2.2.2

/-- State b differs from state a exactly in the camera eye point: every
other camera component and every non-camera component agrees. -/
abbrev onlyEyeChanged (a b : Window) : Prop :=
  b.m_camera.eyePoint ≠ a.m_camera.eyePoint ∧
  b.m_camera.yaw = a.m_camera.yaw ∧ b.m_camera.pitch = a.m_camera.pitch ∧
  b.m_camera.winW = a.m_camera.winW ∧ b.m_camera.winH = a.m_camera.winH ∧
  b.m_camera.nearPlane = a.m_camera.nearPlane ∧
  b.m_camera.farPlane = a.m_camera.farPlane ∧
  b.m_window = a.m_window ∧ b.native = a.native ∧
  b.windowTitle_ = a.windowTitle_ ∧ b.fpsCount_ = a.fpsCount_ ∧
  b.currentTime_ = a.currentTime_ ∧ b.lastUpdate_ = a.lastUpdate_

/-- State b differs from state a exactly in the camera yaw angle. -/
abbrev onlyYawChanged (a b : Window) : Prop :=
  b.m_camera.yaw ≠ a.m_camera.yaw ∧
  b.m_camera.eyePoint = a.m_camera.eyePoint ∧ b.m_camera.pitch = a.m_camera.pitch ∧
  b.m_camera.winW = a.m_camera.winW ∧ b.m_camera.winH = a.m_camera.winH ∧
  b.m_camera.nearPlane = a.m_camera.nearPlane ∧
  b.m_camera.farPlane = a.m_camera.farPlane ∧
  b.m_window = a.m_window ∧ b.native = a.native ∧
  b.windowTitle_ = a.windowTitle_ ∧ b.fpsCount_ = a.fpsCount_ ∧
  b.currentTime_ = a.currentTime_ ∧ b.lastUpdate_ = a.lastUpdate_

/-- State b differs from state a exactly in the camera pitch angle. -/
abbrev onlyPitchChanged (a b : Window) : Prop :=
  b.m_camera.pitch ≠ a.m_camera.pitch ∧
  b.m_camera.eyePoint = a.m_camera.eyePoint ∧ b.m_camera.yaw = a.m_camera.yaw ∧
  b.m_camera.winW = a.m_camera.winW ∧ b.m_camera.winH = a.m_camera.winH ∧
  b.m_camera.nearPlane = a.m_camera.nearPlane ∧
  b.m_camera.farPlane = a.m_camera.farPlane ∧
  b.m_window = a.m_window ∧ b.native = a.native ∧
  b.windowTitle_ = a.windowTitle_ ∧ b.fpsCount_ = a.fpsCount_ ∧
  b.currentTime_ = a.currentTime_ ∧ b.lastUpdate_ = a.lastUpdate_

/-- C8 counterexample: the key handler has ten movement/rotation keys, not
eight.  From the concrete open default state (on which the reset key R is
the identity), exactly ten key codes in the full GLFW key range 0..348
change the state on a press: W, S, A, D, Q, E and the four arrow keys. -/
theorem movement_key_count_is_ten :
    ((List.range 349).filter
       (fun n => decide (Window.handleKeyEvent dirs0 (n : Int) GLFW_PRESS 0 os0 ≠ os0))).length = 10 := by
  decide

/-- C8 (amended): the handler acts only on press or repeat — on a release
action it is the identity for every key, state and direction model — and at
the fixed concrete starting state each of the ten movement/rotation keys
mutates exactly one camera property: W, S, A, D, Q, E change only the eye
point, the left/right arrows change only yaw, and the up/down arrows change
only pitch. -/
theorem movement_keys_mutate_one_property :
    (∀ (dirs : CameraDirs) (k m : Int) (s : Window),
        Window.handleKeyEvent dirs k GLFW_RELEASE m s = s) ∧
    onlyEyeChanged os0 (Window.handleKeyEvent dirs0 GLFW_KEY_W GLFW_PRESS 0 os0) ∧
    onlyEyeChanged os0 (Window.handleKeyEvent dirs0 GLFW_KEY_S GLFW_PRESS 0 os0) ∧
    onlyEyeChanged os0 (Window.handleKeyEvent dirs0 GLFW_KEY_A GLFW_PRESS 0 os0) ∧
    onlyEyeChanged os0 (Window.handleKeyEvent dirs0 GLFW_KEY_D GLFW_PRESS 0 os0) ∧
    onlyEyeChanged os0 (Window.handleKeyEvent dirs0 GLFW_KEY_Q GLFW_PRESS 0 os0) ∧
    onlyEyeChanged os0 (Window.handleKeyEvent dirs0 GLFW_KEY_E GLFW_PRESS 0 os0) ∧
    onlyYawChanged os0 (Window.handleKeyEvent dirs0 GLFW_KEY_LEFT GLFW_PRESS 0 os0) ∧
    onlyYawChanged os0 (Window.handleKeyEvent dirs0 GLFW_KEY_RIGHT GLFW_PRESS 0 os0) ∧
    onlyPitchChanged os0 (Window.handleKeyEvent dirs0 GLFW_KEY_UP GLFW_PRESS 0 os0) ∧
    onlyPitchChanged os0 (Window.handleKeyEvent dirs0 GLFW_KEY_DOWN GLFW_PRESS 0 os0) := by
  refine ⟨?_, ?_, ?_, ?_, ?_, ?_, ?_, ?_, ?_, ?_, ?_⟩
  · intro dirs k m s
    by_cases h : s.isOpen <;>
      simp [Window.handleKeyEvent, h, GLFW_RELEASE, GLFW_PRESS, GLFW_REPEAT]
  all_goals decide

/-- C6: computeFPS never divides by zero.  The frame counter is incremented
before the reporting check, so the FPS divisor is the successor of the
entry counter and is nonzero as a rational — even when the counter is 0 at
entry — and in the reporting branch the elapsed-time divisor is at least 1,
hence nonzero, and the call completes with the counter reset to 0. -/
theorem computeFPS_divisors_nonzero (s : Window) (t1 t2 : ℚ) :
    ((s.fpsCount_ + 1 : ℕ) : ℚ) ≠ 0 ∧
    (1 ≤ t1 - s.lastUpdate_ →
      (t1 - s.lastUpdate_ ≠ 0 ∧ (Window.computeFPS t1 t2 s).1.fpsCount_ = 0)) := by
  refine ⟨?_, fun h => ⟨?_, ?_⟩⟩
  · exact_mod_cast Nat.succ_ne_zero s.fpsCount_
  · intro h0
    rw [h0] at h
    norm_num at h
  · simp [Window.computeFPS, Window.setWindowTitle, h, apply_ite Prod.fst,
      apply_ite Window.fpsCount_]

/-- C6 witness: the degenerate reporting instant with a zero frame counter,
at the concrete open window. -/
theorem computeFPS_divisors_nonzero_witness :
    (((os0.fpsCount_ + 1 : ℕ) : ℚ) ≠ 0) ∧
    ((5 : ℚ) - os0.lastUpdate_ ≠ 0 ∧ (Window.computeFPS 5 5 os0).1.fpsCount_ = 0) :=
  ⟨(computeFPS_divisors_nonzero os0 5 5).1,
   (computeFPS_divisors_nonzero os0 5 5).2 (by norm_num [os0])⟩

/-- C5: on an open window, computeFPS leaves the title untouched (and emits
no library call) while less than one second has elapsed since the last
report, and on the first call at which the elapsed time reaches the
1-second threshold it issues exactly one title update — formatted from the
stored base title, the frames-per-second value and the
milliseconds-per-frame value — resets the frame counter to 0 and restamps
lastUpdate_. -/
theorem computeFPS_title_threshold (s : Window) (t1 t2 : ℚ)
    (hopen : s.isOpen = true) :
    (t1 - s.lastUpdate_ < 1 →
       Window.computeFPS t1 t2 s =
         ({ s with fpsCount_ := s.fpsCount_ + 1, currentTime_ := t1 }, [])) ∧
    (1 ≤ t1 - s.lastUpdate_ →
       ((Window.computeFPS t1 t2 s).2 =
          [Event.glfwSetWindowTitle
             (formatFPS s.windowTitle_
                (((s.fpsCount_ + 1 : ℕ) : ℚ) / (t1 - s.lastUpdate_))
                (((t1 - s.lastUpdate_) * 1000) / ((s.fpsCount_ + 1 : ℕ) : ℚ)))] ∧
        (Window.computeFPS t1 t2 s).1.native.title =
          formatFPS s.windowTitle_
            (((s.fpsCount_ + 1 : ℕ) : ℚ) / (t1 - s.lastUpdate_))
            (((t1 - s.lastUpdate_) * 1000) / ((s.fpsCount_ + 1 : ℕ) : ℚ)) ∧
        (Window.computeFPS t1 t2 s).1.fpsCount_ = 0 ∧
        (Window.computeFPS t1 t2 s).1.lastUpdate_ = t2)) := by
  have hm : s.m_window = true := hopen
  constructor
  · intro h
    have hc : ¬ (1 ≤ t1 - s.lastUpdate_) := not_le.mpr h
    simp [Window.computeFPS, hc]
  · intro h
    simp [Window.computeFPS, Window.setWindowTitle, Window.isOpen, hm, h]

/-- C5 witness: the threshold behaviour at the concrete open window, below
the threshold at time 1/2 and at the threshold at time 2. -/
theorem computeFPS_title_threshold_witness :
    Window.computeFPS (1/2) 1 os0 =
      ({ os0 with fpsCount_ := os0.fpsCount_ + 1, currentTime_ := 1/2 }, []) ∧
    (Window.computeFPS 2 3 os0).1.fpsCount_ = 0 :=
  ⟨(computeFPS_title_threshold os0 (1/2) 1 rfl).1 (by norm_num [os0]),
   ((computeFPS_title_threshold os0 2 3 rfl).2 (by norm_num [os0])).2.2.1⟩

/-- C9: updateDisplay on a closed window still mutates the FPS state.
swapBuffer is a guarded no-op, but computeFPS runs unguarded: the call
increments the frame counter and refreshes currentTime_, and once a second
has accumulated it resets the counter and lastUpdate_; the title update is
dropped by setWindowTitle's closed-window guard, so no library call is made
and the native window is untouched. -/
theorem updateDisplay_closed_mutates_fps (dirs : CameraDirs)
    (events : List InputEvent) (t1 t2 : ℚ) (s : Window)
    (h : s.isOpen = false) :
    Window.updateDisplay dirs events t1 t2 s =
      (if 1 ≤ t1 - s.lastUpdate_ then
         ({ s with fpsCount_ := 0, currentTime_ := t1, lastUpdate_ := t2 }, [])
       else
         ({ s with fpsCount_ := s.fpsCount_ + 1, currentTime_ := t1 }, [])) := by
  have hm : s.m_window = false := h
  by_cases hc : 1 ≤ t1 - s.lastUpdate_ <;>
    simp [Window.updateDisplay, Window.swapBuffer, Window.computeFPS,
      Window.setWindowTitle, Window.isOpen, hm, hc]

/-- C9 witness: the closed-window FPS mutation at the concrete closed
window and a threshold-reaching time. -/
theorem updateDisplay_closed_mutates_fps_witness :
    Window.updateDisplay dirs0 [] 2 2 cs0 =
      (if 1 ≤ (2 : ℚ) - cs0.lastUpdate_ then
         ({ cs0 with fpsCount_ := 0, currentTime_ := 2, lastUpdate_ := 2 }, [])
       else
         ({ cs0 with fpsCount_ := cs0.fpsCount_ + 1, currentTime_ := 2 }, [])) :=
  updateDisplay_closed_mutates_fps dirs0 [] 2 2 cs0 rfl

/-- C2: when open() is called on a closed window, the window is created but
the graphics-binding initialization fails or the minimum graphics version
is unsupported, open logs the failure and forcibly closes the half-created
window: after open returns, isOpen() is false and no open-window state
survives — no callback is registered on the native window and its
should-close flag is clear. -/
theorem open_failure_fail_closed (env : OpenEnv) (title : String) (w h : Nat)
    (s : Window) (hclosed : s.isOpen = false) (hcreate : env.createOk = true)
    (hfail : env.glewOk = false ∨ env.gl33Supported = false) :
    (Window.openWindow env title w h s).1.isOpen = false ∧
    (Window.openWindow env title w h s).1.native.cbKey = false ∧
    (Window.openWindow env title w h s).1.native.cbWindowSize = false ∧
    (Window.openWindow env title w h s).1.native.cbFramebufferSize = false ∧
    (Window.openWindow env title w h s).1.native.cbScroll = false ∧
    (Window.openWindow env title w h s).1.native.shouldClose = false ∧
    (env.glewOk = false →
       Event.cerrLine ("Unable to initialize glew library: " ++ env.glewErrMsg)
         ∈ (Window.openWindow env title w h s).2) ∧
    (env.gl33Supported = false →
       Event.cerrLine "OpenGL 3.3 is not supported!"
         ∈ (Window.openWindow env title w h s).2) := by
  have hm : s.m_window = false := hclosed
  obtain ⟨co, go, msg, gs⟩ := env
  simp only at hcreate
  subst hcreate
  rcases hfail with hg | hv
  · simp only at hg
    subst hg
    cases gs <;>
      simp [Window.openWindow, Window.setActive, Window.close, Window.isOpen, hm]
  · simp only at hv
    subst hv
    cases go <;>
      simp [Window.openWindow, Window.setActive, Window.close, Window.isOpen, hm]

/-- C2 witness: a glew-initialization failure during open from the fresh
singleton leaves the window closed with no registered callbacks. -/
theorem open_failure_fail_closed_witness :
    (Window.openWindow envGlewFail "Test" 800 600 w0).1.isOpen = false ∧
    (Window.openWindow envGlewFail "Test" 800 600 w0).1.native.cbKey = false :=
  ⟨(open_failure_fail_closed envGlewFail "Test" 800 600 w0 rfl rfl (Or.inl rfl)).1,
   (open_failure_fail_closed envGlewFail "Test" 800 600 w0 rfl rfl (Or.inl rfl)).2.1⟩

/-- C10: after a mid-open initialization failure (glew failure or
unsupported OpenGL 3.3) forces the window closed, open() continues to the
end of its body: it still applies the camera window-size setup, still
attempts the four callback registrations against the cleared handle (the
nullWin flag of the registration calls in the trace is true), and still
overwrites the stored base title with the new title, even though isOpen()
is false when open returns. -/
theorem open_failure_continues_execution (env : OpenEnv) (title : String)
    (w h : Nat) (s : Window) (hclosed : s.isOpen = false)
    (hcreate : env.createOk = true)
    (hfail : env.glewOk = false ∨ env.gl33Supported = false) :
    (Window.openWindow env title w h s).1.isOpen = false ∧
    (Window.openWindow env title w h s).1.m_camera.winW = (w : ℤ) ∧
    (Window.openWindow env title w h s).1.m_camera.winH = (h : ℤ) ∧
    (Window.openWindow env title w h s).1.windowTitle_ = title ∧
    Event.glfwSetKeyCallback true true ∈ (Window.openWindow env title w h s).2 ∧
    Event.glfwSetWindowSizeCallback true true ∈ (Window.openWindow env title w h s).2 ∧
    Event.glfwSetFramebufferSizeCallback true true ∈ (Window.openWindow env title w h s).2 ∧
    Event.glfwSetScrollCallback true true ∈ (Window.openWindow env title w h s).2 := by
  have hm : s.m_window = false := hclosed
  obtain ⟨co, go, msg, gs⟩ := env
  simp only at hcreate
  subst hcreate
  rcases hfail with hg | hv
  · simp only at hg
    subst hg
    cases gs <;>
      simp [Window.openWindow, Window.setActive, Window.close, Window.isOpen,
        Camera.setWindowSize, hm]
  · simp only at hv
    subst hv
    cases go <;>
      simp [Window.openWindow, Window.setActive, Window.close, Window.isOpen,
        Camera.setWindowSize, hm]

/-- C10 witness: after a failed open from the fresh singleton, the stored
title was still overwritten and the key-callback registration was attempted
on the NULL handle. -/
theorem open_failure_continues_execution_witness :
    (Window.openWindow envGlewFail "Test2" 640 480 w0).1.windowTitle_ = "Test2" ∧
    Event.glfwSetKeyCallback true true ∈ (Window.openWindow envGlewFail "Test2" 640 480 w0).2 :=
  ⟨(open_failure_continues_execution envGlewFail "Test2" 640 480 w0 rfl rfl (Or.inl rfl)).2.2.2.1,
   (open_failure_continues_execution envGlewFail "Test2" 640 480 w0 rfl rfl (Or.inl rfl)).2.2.2.2.1⟩

/-- C4: swapBuffer is a no-op when the window is closed; when open it
activates the context, presents the back buffer, polls and dispatches all
pending input events, then checks the library's close-request flag and
closes the window exactly when the flag is set.  The trace equation shows
the context activation, swap, poll, the dispatched events' effects and the
should-close check occur unconditionally on every open-window call. -/
theorem swapBuffer_spec (dirs : CameraDirs) (events : List InputEvent)
    (s : Window) :
    (s.isOpen = false → Window.swapBuffer dirs events s = (s, [])) ∧
    (s.isOpen = true →
      ((Window.swapBuffer dirs events s).1 =
         (if (Window.dispatchEvents dirs events s).1.native.shouldClose then
            ((Window.close (Window.dispatchEvents dirs events s).1).1)
          else (Window.dispatchEvents dirs events s).1) ∧
       (Window.swapBuffer dirs events s).2 =
         Event.glfwMakeContextCurrent :: Event.glfwSwapBuffers :: Event.glfwPollEvents ::
           ((Window.dispatchEvents dirs events s).2 ++
            Event.glfwWindowShouldClose (Window.dispatchEvents dirs events s).1.native.shouldClose ::
              (if (Window.dispatchEvents dirs events s).1.native.shouldClose then
                 (Window.close (Window.dispatchEvents dirs events s).1).2
               else [])) ∧
       ((Window.swapBuffer dirs events s).1.isOpen = false ↔
          (Window.dispatchEvents dirs events s).1.native.shouldClose = true))) := by
  constructor
  · intro h
    simp [Window.swapBuffer, h]
  · intro h
    have hm : s.m_window = true := h
    have hd : ((Window.dispatchEvents dirs events s).1).m_window = true := by
      rw [dispatchEvents_m_window]; exact hm
    by_cases hf : (Window.dispatchEvents dirs events s).1.native.shouldClose <;>
      simp [Window.swapBuffer, Window.setActive, Window.close, Window.isOpen,
        hm, hd, hf]

/-- C4 witness: the no-op half at the concrete closed window and the
close-iff-flag half at the concrete open window. -/
theorem swapBuffer_spec_witness :
    Window.swapBuffer dirs0 [] cs0 = (cs0, []) ∧
    ((Window.swapBuffer dirs0 [] os0).1.isOpen = false ↔
       (Window.dispatchEvents dirs0 [] os0).1.native.shouldClose = true) :=
  ⟨(swapBuffer_spec dirs0 [] cs0).1 rfl,
   ((swapBuffer_spec dirs0 [] os0).2 rfl).2.2⟩
